
import Mathlib

set_option maxHeartbeats 1000000

namespace Recovery

/-!  Verification of the recovery OTA installer (install.cpp) and of the
post-boot update verifier (update_verifier.cpp).

The development shallowly embeds the decision logic of the two programs:
the package-metadata parser and the A/B build/device gate
(`check_newer_ab_build`), the child supervisor of `try_update_binary`
(status-pipe line dispatch and terminal status), the install-log writer of
`install_package`, and the care-map scanner of the verifier (`read_blocks`,
`verify_image`, `main`).  External effects (zip extraction, system
properties, fork/exec, block-device I/O, the boot-control HAL) are modelled
as explicit environment records; the embedded functions are executable and
their traces (UI calls, block reads) are returned as data.  -/

/-! ### C library and android-base string primitives -/

/-- C `isspace`: space, tab, newline, vertical tab, form feed, carriage
return. -/
def isCSpace (c : Char) : Bool :=
  c = ' ' || c = '\t' || c = '\n' || c = Char.ofNat 11 || c = Char.ofNat 12 || c = '\r'

/-- `android::base::Trim`: remove leading and trailing `isspace` characters. -/
def trimC (s : String) : String :=
  String.mk (((s.data.dropWhile isCSpace).reverse.dropWhile isCSpace).reverse)

/-- `android::base::Split(s, d)` for a single-character delimiter set: the
(never empty) list of fragments between occurrences of `d`, keeping empty
fragments. -/
def splitOnChar (d : Char) : List Char → List (List Char)
  | [] => [[]]
  | c :: cs =>
    match splitOnChar d cs with
    | [] => [[]]
    | t :: ts => if c = d then [] :: t :: ts else (c :: t) :: ts

/-- `android::base::Split` on strings, single-character delimiter set. -/
def splitStr (d : Char) (s : String) : List String :=
  (splitOnChar d s.data).map String.mk

/-- Digit value of `c` in the given base, `none` for a non-digit. -/
def digitVal (base : Nat) (c : Char) : Option Nat :=
  let v :=
    if '0' ≤ c ∧ c ≤ '9' then some (c.toNat - 48)
    else if 'a' ≤ c ∧ c ≤ 'f' then some (c.toNat - 87)
    else if 'A' ≤ c ∧ c ≤ 'F' then some (c.toNat - 55)
    else none
  match v with
  | some n => if n < base then some n else none
  | none => none

/-- Accumulating digit-string evaluation. -/
def parseDigitsAux (base : Nat) : List Char → Nat → Option Nat
  | [], acc => some acc
  | c :: cs, acc =>
    match digitVal base c with
    | some v => parseDigitsAux base cs (acc * base + v)
    | none => none

/-- Value of a non-empty all-digit string in the given base; `none` when the
string is empty or contains a non-digit. -/
def parseDigits (base : Nat) (cs : List Char) : Option Nat :=
  match cs with
  | [] => none
  | _ => parseDigitsAux base cs 0

/-- `android::base::ParseUint` (strtoull based): a leading `0x` selects
hexadecimal, otherwise decimal; the whole string must be consumed and the
value must not exceed `max`.  (The leading-whitespace and sign wrap-around
tolerance of `strtoull` is not modelled; on the installer's and verifier's
grammars such inputs fail the surrounding checks either way.) -/
def cParseUint (s : String) (max : Nat) : Option Nat :=
  let cs := s.data
  let r := if cs.take 2 = ['0', 'x'] then parseDigits 16 (cs.drop 2) else parseDigits 10 cs
  match r with
  | some n => if n ≤ max then some n else none
  | none => none

/-- `android::base::ParseInt` (strtoll based): `0x` hexadecimal detection on
the raw string, optional sign otherwise, full-string consumption, and a
`[lo, hi]` bounds check.  (The leading-whitespace tolerance of `strtoll` is
not modelled.) -/
def cParseInt (s : String) (lo hi : Int) : Option Int :=
  let cs := s.data
  let num : Option Int :=
    if cs.take 2 = ['0', 'x'] then (parseDigits 16 (cs.drop 2)).map Int.ofNat
    else
      match cs with
      | '-' :: rest => (parseDigits 10 rest).map (fun n => -(Int.ofNat n))
      | '+' :: rest => (parseDigits 10 rest).map Int.ofNat
      | _ => (parseDigits 10 cs).map Int.ofNat
  match num with
  | some v => if lo ≤ v ∧ v ≤ hi then some v else none
  | none => none

/-- Largest signed 64-bit integer, `std::numeric_limits<int64_t>::max()`. -/
def int64Max : Int := 2 ^ 63 - 1

/-- Smallest signed 64-bit integer. -/
def int64Min : Int := -(2 ^ 63)

/-- `android::base::ParseInt<int64_t>` with default bounds. -/
def parseInt64 (s : String) : Option Int := cParseInt s int64Min int64Max

/-- The Android system properties as `property_get` exposes them: a total map
from key to value, `""` for an unset property. -/
def Props : Type := String → String

/-- cutils `property_get_int64`: the property value when it is set and fully
parses as a decimal signed 64-bit integer, the supplied default otherwise. -/
def property_get_int64 (props : Props) (key : String) (default_value : Int) : Int :=
  let s := (props key).data
  let num : Option Int :=
    match s with
    | '-' :: rest => (parseDigits 10 rest).map (fun n => -(Int.ofNat n))
    | '+' :: rest => (parseDigits 10 rest).map Int.ofNat
    | _ => (parseDigits 10 s).map Int.ofNat
  match num with
  | some v => if int64Min ≤ v ∧ v ≤ int64Max then v else default_value
  | none => default_value

/-! ### Package metadata (install.cpp, check_newer_ab_build lines 146-152) -/

/-- Split a character list at its first `'='`: `some (key, value)` with both
parts verbatim, `none` when there is no `'='`.  Models
`line.find('=')` / `line.substr(0, eq)` / `line.substr(eq + 1)`. -/
def splitEqAux : List Char → Option (List Char × List Char)
  | [] => none
  | c :: cs =>
    if c = '=' then some ([], cs)
    else
      match splitEqAux cs with
      | some (k, v) => some (c :: k, v)
      | none => none

/-- Split a metadata line at its first `'='`; lines without `'='` yield
`none` and contribute no entry. -/
def splitFirstEq (line : String) : Option (String × String) :=
  match splitEqAux line.data with
  | some (k, v) => some (String.mk k, String.mk v)
  | none => none

/-- The metadata key/value pairs of `check_newer_ab_build`: the blob is split
on newlines and each line containing `'='` contributes the pair
`(substr(0, eq), substr(eq + 1))`, both verbatim. -/
def parseMetadata (s : String) : List (String × String) :=
  (splitStr '\n' s).filterMap splitFirstEq

/-- `metadata[k]` of the `std::map` built in `check_newer_ab_build`: repeated
assignment makes the last occurrence of a key win, and `operator[]` yields
`""` for a missing key. -/
def metaValue (s k : String) : String :=
  (parseMetadata s).foldl (fun acc p => if p.1 == k then p.2 else acc) ""

/-- Declarative counterpart used to state what the parsed mapping holds: the
value of the last `'='`-line whose key part equals `k`, `""` otherwise. -/
def lastAssign (s k : String) : String :=
  match (parseMetadata s).reverse.find? (fun p => p.1 == k) with
  | some p => p.2
  | none => ""

/-! ### Install results (install.h) and the A/B build/device gate -/

/-- The install results used by install.cpp (`INSTALL_SUCCESS`,
`INSTALL_ERROR`, `INSTALL_CORRUPT`, `INSTALL_RETRY`). -/
inductive InstallResult
  | SUCCESS
  | ERROR
  | CORRUPT
  | RETRY
  deriving DecidableEq, Repr

/-- The body of `check_newer_ab_build` after the metadata blob has been read
(install.cpp lines 146-214): device, serial, ota-type, source-build and
downgrade predicates, in source order. -/
def check_newer_ab_build_meta (props : Props) (metadata_str : String) : InstallResult :=
  let meta := metaValue metadata_str
  let pkg_device := meta "pre-device"
  if pkg_device ≠ props "ro.product.device" ∨ pkg_device = "" then .ERROR
  else
    let pkg_serial_no := meta "serialno"
    if pkg_serial_no ≠ "" ∧ pkg_serial_no ≠ props "ro.serialno" then .ERROR
    else if meta "ota-type" ≠ "AB" then .ERROR
    else
      let pkg_pre_build := meta "pre-build-incremental"
      if pkg_pre_build ≠ "" ∧ pkg_pre_build ≠ props "ro.build.version.incremental" then .ERROR
      else
        let pkg_pre_build_fingerprint := meta "pre-build"
        if pkg_pre_build_fingerprint ≠ "" ∧
            pkg_pre_build_fingerprint ≠ props "ro.build.fingerprint" then .ERROR
        else
          let build_timestamp := property_get_int64 props "ro.build.date.utc" int64Max
          let post := meta "post-timestamp"
          if post = "" ∨ parseInt64 post = none ∨ (parseInt64 post).getD 0 < build_timestamp then
            if meta "ota-downgrade" ≠ "yes" then .ERROR
            else if pkg_pre_build_fingerprint = "" then .ERROR
            else .SUCCESS
          else .SUCCESS

/-- The downgrade predicate as the specification words it: `post-timestamp`
missing, unparsable as a signed 64-bit integer, or strictly less than the
runtime `ro.build.date.utc` timestamp (defaulting to the largest signed
64-bit integer when absent). -/
def isDowngrade (props : Props) (metadata_str : String) : Prop :=
  metaValue metadata_str "post-timestamp" = "" ∨
  parseInt64 (metaValue metadata_str "post-timestamp") = none ∨
  ∃ v, parseInt64 (metaValue metadata_str "post-timestamp") = some v ∧
    v < property_get_int64 props "ro.build.date.utc" int64Max

instance (props : Props) (m : String) : Decidable (isDowngrade props m) := by
  unfold isDowngrade
  exact inferInstance

/-! ### The child supervisor of try_update_binary (install.cpp 302-445) -/

/-- The update package as the installer sees it: the metadata blob (`none`
when `META-INF/com/android/metadata` is absent or unreadable), the extracted
`payload_properties.txt` bytes (`none` when the entry is missing or
extraction fails), and the byte offset of `payload.bin` (`none` when the
entry is missing). -/
structure Zip where
  metadata : Option String
  payload_properties : Option String
  payload_offset : Option Int

/-- `check_newer_ab_build` (install.cpp 140-215): read the metadata blob
(`INSTALL_CORRUPT` when that fails) and run the gate predicates over it. -/
def check_newer_ab_build (props : Props) (zip : Zip) : InstallResult :=
  match zip.metadata with
  | none => .CORRUPT
  | some metadata_str => check_newer_ab_build_meta props metadata_str

/-- The A/B `update_binary_command` (install.cpp 217-258): run the gate, then
locate and extract `payload_properties.txt` and locate `payload.bin`, and
build the `update_engine_sideload` argument vector.  (The A/B variant
ignores its `retry_count` argument, so it is omitted here.) -/
def update_binary_command (props : Props) (path : String) (zip : Zip)
    (status_fd : Nat) : Except InstallResult (List String) :=
  match check_newer_ab_build props zip with
  | .SUCCESS =>
    match zip.payload_properties with
    | none => .error .CORRUPT
    | some payload_props =>
      match zip.payload_offset with
      | none => .error .CORRUPT
      | some payload_offset =>
        .ok ["/sbin/update_engine_sideload",
          "--payload=file://" ++ path,
          "--offset=" ++ toString payload_offset,
          "--headers=" ++ payload_props,
          "--status_fd=" ++ toString status_fd]
  | ret => .error ret

/-- `parse_build_number` (install.cpp 64-76): the trimmed text after `'='`,
parsed as a non-negative `int` (`ParseInt` with minimum 0); `none` models the
`-1` failure sentinel. -/
def parse_build_number (str : String) : Option Int :=
  match splitEqAux str.data with
  | none => none
  | some (_, after) => cParseInt (trimC (String.mk after)) 0 (2 ^ 31 - 1)

/-- `read_source_target_build` (install.cpp 100-125): append
`source_build:` / `target_build:` lines to the log buffer for the trimmed
metadata lines starting with `pre-build-incremental` /
`post-build-incremental` whose numbers parse. -/
def read_source_target_build (zip : Zip) (log_buffer : List String) : List String :=
  match zip.metadata with
  | none => log_buffer
  | some meta_data =>
    (splitStr '\n' meta_data).foldl (fun buf line =>
      let str := trimC line
      if "pre-build-incremental".data.isPrefixOf str.data then
        match parse_build_number str with
        | some n => buf ++ ["source_build: " ++ toString n]
        | none => buf
      else if "post-build-incremental".data.isPrefixOf str.data then
        match parse_build_number str with
        | some n => buf ++ ["target_build: " ++ toString n]
        | none => buf
      else buf) log_buffer

/-- A UI call made by the supervisor loop.  Numeric arguments are recorded as
the raw strings handed to `strtof` / `strtol`; the floating-point progress
arithmetic is external to this development. -/
inductive UIEffect
  | showProgress (fraction_s seconds_s : String)
  | setProgress (fraction_s : String)
  | printScreen (s : String)
  | setBackgroundNone
  | setEnableReboot (b : Bool)
  deriving DecidableEq, Repr

/-- The parent-side state of the supervisor loop. -/
structure SupState where
  wipe_cache : Bool
  retry_update : Bool
  log_buffer : List String
  ui : List UIEffect
  deriving DecidableEq, Repr

/-- One `strtok` step on the remaining buffer: skip leading delimiters, take
the maximal delimiter-free token, and consume one terminating delimiter.
`none` is C's NULL result, returned when only delimiters (or nothing)
remain. -/
def strtokAux (delims : List Char) (buf : List Char) : Option (List Char) × List Char :=
  let rest := buf.dropWhile (fun c => delims.contains c)
  match rest with
  | [] => (none, [])
  | _ =>
    let tok := rest.takeWhile (fun c => !(delims.contains c))
    (some tok, (rest.drop tok.length).drop 1)

/-- The delimiters of the command and argument tokens, `" \n"`. -/
def stdDelims : List Char := [' ', '\n']

/-- Dispatch of one status line's command in the `try_update_binary`
supervisor loop (install.cpp 390-430), given the command token and the
remaining buffer.  `none` models the undefined behaviour (in practice a
crash) of handing the NULL result of `strtok` to `strtof` / `strtol` /
`std::string` when a `progress`, `set_progress` or `log` line lacks its
argument. -/
def processCmd (st : SupState) (command : String) (rest : List Char) : Option SupState :=
  if command = "progress" then
    let t1 := strtokAux stdDelims rest
    let t2 := strtokAux stdDelims t1.2
    match t1.1, t2.1 with
    | some f, some s =>
      some { st with ui := st.ui ++ [UIEffect.showProgress (String.mk f) (String.mk s)] }
    | _, _ => none
  else if command = "set_progress" then
    match (strtokAux stdDelims rest).1 with
    | some f => some { st with ui := st.ui ++ [UIEffect.setProgress (String.mk f)] }
    | none => none
  else if command = "ui_print" then
    match (strtokAux ['\n'] rest).1 with
    | some s => some { st with ui := st.ui ++ [UIEffect.printScreen (String.mk s)] }
    | none => some { st with ui := st.ui ++ [UIEffect.printScreen "\n"] }
  else if command = "wipe_cache" then some { st with wipe_cache := true }
  else if command = "clear_display" then some { st with ui := st.ui ++ [UIEffect.setBackgroundNone] }
  else if command = "enable_reboot" then some { st with ui := st.ui ++ [UIEffect.setEnableReboot true] }
  else if command = "retry_update" then some { st with retry_update := true }
  else if command = "log" then
    match (strtokAux ['\n'] rest).1 with
    | some s => some { st with log_buffer := st.log_buffer ++ [String.mk s] }
    | none => none
  else some st

/-- One iteration of the supervisor loop on one line read by `fgets`: an
all-delimiter line has no command and is skipped (`continue`); otherwise the
first token dispatches. -/
def processLine (st : SupState) (line : String) : Option SupState :=
  match (strtokAux stdDelims line.data).1 with
  | none => some st
  | some cmd => processCmd st (String.mk cmd) (strtokAux stdDelims line.data).2

/-- The supervisor loop over the whole status stream until EOF. -/
def processLines (st : SupState) : List String → Option SupState
  | [] => some st
  | l :: ls =>
    match processLine st l with
    | some st2 => processLines st2 ls
    | none => none

/-- The child's `waitpid` status: normal exit with `WEXITSTATUS` code, or
abnormal termination (`WIFEXITED` false). -/
inductive ChildStatus
  | exited (code : Nat)
  | signaled (sig : Nat)
  deriving DecidableEq, Repr

/-- The externally-determined events of one `try_update_binary` run: whether
`fork` succeeded, the status lines the parent reads from the pipe before EOF
(each string is one `fgets` result), and the child's exit status. -/
structure ChildRun where
  forkOk : Bool
  lines : List String
  status : ChildStatus

/-- The write end of the status pipe as numbered in the argument vector. -/
def pipeWriteFd : Nat := 1

/-- `try_update_binary` (install.cpp 302-445): log source/target builds,
build the child command (early return on failure), fork (`INSTALL_ERROR` on
failure), run the supervisor loop, reap the child, and compute the terminal
status.  The result is the returned install result together with the final
`*wipe_cache` and log buffer; `none` models the parent crashing inside the
loop. -/
def try_update_binary (props : Props) (path : String) (zip : Zip) (wipe_cache : Bool)
    (log_buffer : List String) (child : ChildRun) :
    Option (InstallResult × Bool × List String) :=
  let log1 := read_source_target_build zip log_buffer
  match update_binary_command props path zip pipeWriteFd with
  | .error ret => some (ret, wipe_cache, log1)
  | .ok _args =>
    if child.forkOk then
      match processLines ⟨false, false, log1, []⟩ child.lines with
      | none => none
      | some st =>
        let result :=
          if st.retry_update then InstallResult.RETRY
          else
            match child.status with
            | .exited 0 => InstallResult.SUCCESS
            | _ => InstallResult.ERROR
        some (result, st.wipe_cache, st.log_buffer)
    else some (.ERROR, wipe_cache, log1)

/-- The first `strtok` token of a line: its command. -/
def firstTok (line : String) : Option String :=
  ((strtokAux stdDelims line.data).1).map String.mk

/-- Whether some status line's command is `retry_update`. -/
def hasRetryLine (lines : List String) : Bool :=
  lines.any (fun l => firstTok l == some "retry_update")

/-- Whether some status line's command is `wipe_cache`. -/
def hasWipeLine (lines : List String) : Bool :=
  lines.any (fun l => firstTok l == some "wipe_cache")

/-- Runtime properties of the C1 witness device. -/
def propsC1 : Props := fun k =>
  if k == "ro.product.device" then "A"
  else if k == "ro.build.date.utc" then "900"
  else if k == "ro.build.fingerprint" then "x" else ""

/-- Package metadata of the C1 witness: a licensed downgrade. -/
def metaC1 : String :=
  "pre-device=A\nota-type=AB\npost-timestamp=500\nota-downgrade=yes\npre-build=x"

/-! ### The install driver (install.cpp 447-559) -/

/-- Modelled from the spec: `kZipVerificationFailure` of error_code.h (a
header that is not among the sources), the well-known code of the
`"error: <code>"` line logged on signature-verification failure. -/
def kZipVerificationFailure : Int := 21

/-- Modelled from the spec: `kZipOpenFailure` of error_code.h, the well-known
code of the `"error: <code>"` line logged on archive-open failure. -/
def kZipOpenFailure : Int := 22

/-- The externally-determined events of one `really_install_package` run:
whether `sysMapFile`, `verify_package` and `OpenArchiveFromMemory` succeed,
plus the package, properties and child events consumed further down. -/
structure InstallEnv where
  props : Props
  zip : Zip
  child : ChildRun
  mapOk : Bool
  verifyOk : Bool
  openOk : Bool

/-- `really_install_package` (install.cpp 447-507): map the package
(`INSTALL_CORRUPT` on failure), verify its signature (`INSTALL_CORRUPT`, with
an `error:` log line), open the archive (`INSTALL_CORRUPT`, with an `error:`
log line), then run `try_update_binary`.  UI calls and the unconditional
map/archive release are external effects without bearing on the result. -/
def really_install_package (env : InstallEnv) (path : String) (wipe_cache : Bool)
    (log_buffer : List String) : Option (InstallResult × Bool × List String) :=
  if !env.mapOk then some (.CORRUPT, wipe_cache, log_buffer)
  else if !env.verifyOk then
    some (.CORRUPT, wipe_cache, log_buffer ++ ["error: " ++ toString kZipVerificationFailure])
  else if !env.openOk then
    some (.CORRUPT, wipe_cache, log_buffer ++ ["error: " ++ toString kZipOpenFailure])
  else try_update_binary env.props path env.zip wipe_cache log_buffer env.child

/-- `android::base::Join` with a string separator. -/
def joinWith (sep : String) : List String → String
  | [] => ""
  | [x] => x
  | x :: xs => x ++ sep ++ joinWith sep xs

/-- The install log written at the end of `install_package` (install.cpp
542-550): the four-line header joined by newlines, a newline, and the joined
log buffer. -/
def install_log_content (path : String) (result : InstallResult) (time_total : Int)
    (retry_count : Nat) (log_buffer : List String) : String :=
  joinWith "\n" [path,
    if result = InstallResult.SUCCESS then "1" else "0",
    "time_total: " ++ toString time_total,
    "retry: " ++ toString retry_count] ++ "\n" ++ joinWith "\n" log_buffer

/-- The externally-determined events of one `install_package` run: the inner
run's events, whether `setup_install_mounts` succeeds, whether the uncrypt
status file's partition mounts, the uncrypt file contents (`none` when
unreadable), and the integer-truncated elapsed seconds of the wall clock. -/
structure OuterEnv where
  inner : InstallEnv
  setupMountsOk : Bool
  uncryptMountOk : Bool
  uncryptContents : Option String
  time_total : Int

/-- `install_package` (install.cpp 509-559): set up mounts (`INSTALL_ERROR`
on failure) or really install, append the trimmed uncrypt status when it is
readable and starts with `uncrypt_`, and write the log.  The result is the
returned install result, the final `*wipe_cache` and the written log
content; `none` models the supervisor-loop crash, on which no log is
written. -/
def install_package (env : OuterEnv) (path : String) (wipe_cache : Bool)
    (retry_count : Nat) : Option (InstallResult × Bool × String) :=
  let step :=
    if !env.setupMountsOk then some (InstallResult.ERROR, wipe_cache, ([] : List String))
    else really_install_package env.inner path wipe_cache []
  step.map fun trip =>
    let log_buffer :=
      if !env.uncryptMountOk then trip.2.2
      else
        match env.uncryptContents with
        | none => trip.2.2
        | some s =>
          if "uncrypt_".data.isPrefixOf s.data then trip.2.2 ++ [trimC s] else trip.2.2
    (trip.1, trip.2.1, install_log_content path trip.1 env.time_total retry_count log_buffer)

/-! ### The post-boot update verifier (update_verifier.cpp) -/

/-- `BLOCKSIZE` of update_verifier.cpp. -/
def BLOCKSIZE : Nat := 4096

/-- Largest `size_t` value (64-bit), the `ParseUint` bound of the range
count. -/
def sizeTMax : Nat := 2 ^ 64 - 1

/-- Largest `unsigned int` value (32-bit), the `ParseUint` bound of the range
endpoints. -/
def uintMax : Nat := 2 ^ 32 - 1

/-- ASCII lower-casing, as C `tolower` acts on letters. -/
def asciiLower (c : Char) : Char :=
  if 'A' ≤ c ∧ c ≤ 'Z' then Char.ofNat (c.toNat + 32) else c

/-- `strcasecmp(a, b) == 0`. -/
def strcasecmpEq (a b : String) : Bool :=
  a.data.map asciiLower == b.data.map asciiLower

/-- The tri-valued result of `isSlotMarkedSuccessful`
(`android::hardware::boot::V1_0::BoolResult`). -/
inductive BoolResult
  | FALSE
  | TRUE
  | INVALID
  deriving DecidableEq, Repr

/-- The care-map file as the verifier can encounter it: absent (open fails),
present but unreadable (`ReadFdToString` fails), or readable contents. -/
inductive CareMapFile
  | absent
  | unreadable
  | contents (s : String)

/-- The externally-determined surroundings of one verifier run: whether the
bootctrl service resolves, the current slot and its marked-successful
result, the runtime properties, the care map, which block devices open, and
whether `markBootSuccessful` reports success.  Seeks and reads on an opened
device are modelled as succeeding; their failure paths are operational I/O
outside this embedding. -/
structure VerifierEnv where
  hasModule : Bool
  current_slot : Nat
  is_successful : BoolResult
  props : Props
  care_map : CareMapFile
  devOpenOk : String → Bool
  markSuccess : Bool

/-- The pairs loop of `read_blocks` (update_verifier.cpp 82-103): parse each
`(start, end)` pair as unsigned ints, require `start < end`, seek to
`start * BLOCKSIZE` and fully read `(end - start) * BLOCKSIZE` bytes.  Each
performed read is recorded as the byte interval `[fst, snd)` it covers; a
parse failure or an inverted pair stops the loop with failure.  (The
one-element case cannot arise under the even-count guard of the caller.) -/
def read_ranges : List String → Bool × List (Nat × Nat)
  | [] => (true, [])
  | [_] => (true, [])
  | s :: e :: rest =>
    match cParseUint s uintMax, cParseUint e uintMax with
    | some range_start, some range_end =>
      if range_start ≥ range_end then (false, [])
      else
        let offset := range_start * BLOCKSIZE
        let size := (range_end - range_start) * BLOCKSIZE
        let r := read_ranges rest
        (r.1, (offset, offset + size) :: r.2)
    | _, _ => (false, [])

/-- `read_blocks` (update_verifier.cpp 58-107): append the runtime slot
suffix to the device prefix, open the device (failure → `false`, nothing
read), split the range string on commas, parse and validate the leading
count (reject unparsable, zero, odd, or different from the number of
following integers), then run the pairs loop.  Returns the success flag and
the performed reads tagged with the opened device path. -/
def read_blocks (env : VerifierEnv) (blk_device_pre range_str : String) :
    Bool × List (String × Nat × Nat) :=
  let blk_device := blk_device_pre ++ env.props "ro.boot.slot_suffix"
  if !env.devOpenOk blk_device then (false, [])
  else
    let ranges := splitStr ',' range_str
    match cParseUint (ranges.headD "") sizeTMax with
    | none => (false, [])
    | some range_count =>
      if range_count = 0 ∨ range_count % 2 ≠ 0 ∨ range_count ≠ ranges.length - 1 then
        (false, [])
      else
        let r := read_ranges (ranges.drop 1)
        (r.1, r.2.map (fun p => (blk_device, p)))

/-- The device/ranges loop of `verify_image` (update_verifier.cpp 136-140). -/
def verify_lines (env : VerifierEnv) : List String → Bool × List (String × Nat × Nat)
  | dev :: rg :: rest =>
    let r := read_blocks env dev rg
    if r.1 then
      let r2 := verify_lines env rest
      (r2.1, r.2 ++ r2.2)
    else (false, r.2)
  | _ => (true, [])

/-- `verify_image` (update_verifier.cpp 109-143): a missing care map is a
warning and success with nothing scanned; readable-open-but-unreadable
contents fail; otherwise trim the contents, split on newlines, require
exactly 2 or 4 lines, and scan each (device, ranges) pair. -/
def verify_image (env : VerifierEnv) : Bool × List (String × Nat × Nat) :=
  match env.care_map with
  | .absent => (true, [])
  | .unreadable => (false, [])
  | .contents file_content =>
    let lines := splitStr '\n' (trimC file_content)
    if lines.length ≠ 2 ∧ lines.length ≠ 4 then (false, [])
    else verify_lines env lines

/-- `main` of update_verifier.cpp (lines 145-191): resolve bootctrl (absence
fails), query the slot's marked-successful result, and only on `FALSE` check
the verity mode (`eio` case-insensitively fails, as does anything other than
exactly `enforcing`), scan the care map, and mark the boot successful.
Returns the process exit code, the performed block reads, and whether
`markBootSuccessful` was invoked.  (The `property_get == -1` branch of the
source is dead: `property_get` never returns -1.) -/
def update_verifier_main (env : VerifierEnv) : Int × List (String × Nat × Nat) × Bool :=
  if !env.hasModule then (-1, [], false)
  else
    match env.is_successful with
    | .FALSE =>
      let verity_mode := env.props "ro.boot.veritymode"
      if strcasecmpEq verity_mode "eio" then (-1, [], false)
      else if verity_mode ≠ "enforcing" then (-1, [], false)
      else
        let vi := verify_image env
        if !vi.1 then (-1, vi.2, false)
        else if !env.markSuccess then (-1, vi.2, true)
        else (0, vi.2, true)
    | _ => (0, [], false)

/-- Declarative description of a well-formed range-pair list: the strings
parse pairwise as unsigned 32-bit ints with `start < end`. -/
def goodPairs : List String → List (Nat × Nat) → Bool
  | [], [] => true
  | [_], [] => true
  | s :: e :: rest, (a, b) :: ps =>
    cParseUint s uintMax == some a && cParseUint e uintMax == some b &&
      decide (a < b) && goodPairs rest ps
  | _, _ => false

/-! ### Concrete inputs of the witnesses and counterexamples -/

/-- The update package of the supervisor witnesses: gate-passing metadata
(`metaC1` under `propsC1`), extractable payload properties and a payload
offset. -/
def zipW : Zip := ⟨some metaC1, some "H", some 7⟩

/-- A status stream whose `retry_update` line is followed by an argument-less
`progress` line. -/
def childCrash : ChildRun := ⟨true, ["retry_update\n", "progress\n"], .exited 0⟩

/-- Status stream of the C2 witness: a retry request and child exit code 1. -/
def childRetry : ChildRun := ⟨true, ["ui_print hi\n", "retry_update\n"], .exited 1⟩

/-- Environment of the C5 witness: mount setup fails, so the install errors
out before the package is touched and logs an empty buffer. -/
def envC5 : OuterEnv :=
  ⟨⟨propsC1, zipW, childRetry, true, true, true⟩, false, false, none, 3⟩

/-- A zip with no readable metadata: the gate fails with `INSTALL_CORRUPT`
before the fork. -/
def zipNoMeta : Zip := ⟨none, some "H", some 7⟩

/-- Status stream of the C10 witness: a `wipe_cache` request. -/
def childWipe : ChildRun := ⟨true, ["wipe_cache\n"], .exited 0⟩

/-- Environment of the C10 witness driver conjuncts. -/
def envC10 : InstallEnv := ⟨propsC1, zipW, childWipe, true, true, true⟩

/-- Environment of the C9 witness: slot suffix `_a`, all devices open. -/
def envC9 : VerifierEnv :=
  ⟨true, 0, .FALSE,
    (fun k => if k == "ro.boot.slot_suffix" then "_a"
      else if k == "ro.boot.veritymode" then "enforcing" else ""),
    .contents "/dev/block/by-name/system\n4,0,2,5,7", (fun _ => true), true⟩

/-- Environment of the C8 witness: a three-line care map. -/
def envC8 : VerifierEnv :=
  ⟨true, 0, .FALSE, (fun _ => ""), .contents "a\nb\nc", (fun _ => true), true⟩

/-- Environment of the C7 witness: slot `FALSE`, verity mode `EIO` (upper
case, exercising the case-insensitive comparison). -/
def envC7 : VerifierEnv :=
  ⟨true, 0, .FALSE, (fun k => if k == "ro.boot.veritymode" then "EIO" else ""),
    .contents "d\n2,0,1", (fun _ => true), true⟩

/-- Environment of the C6 counterexample: `INVALID` slot query result with
verity in EIO mode. -/
def envC6 : VerifierEnv :=
  ⟨true, 0, .INVALID, (fun k => if k == "ro.boot.veritymode" then "eio" else ""),
    .contents "d\n4,0,2,5,7", (fun _ => true), true⟩

/-! ### Metadata-map and gate theorems (claims C3 and C1) -/

/-- Folding assignments left to right keeps the value of the last matching
key, which is the first match when searching the reversed list. -/
theorem foldl_eq_find_reverse (k : String) :
    ∀ (l : List (String × String)) (acc : String),
      l.foldl (fun acc p => if p.1 == k then p.2 else acc) acc =
        (match l.reverse.find? (fun p => p.1 == k) with
         | some p => p.2
         | none => acc) := by
  intro l
  induction l with
  | nil => intro acc; rfl
  | cons p l ih =>
    intro acc
    simp only [List.foldl_cons, List.reverse_cons]
    rw [ih, List.find?_append]
    rcases hf : l.reverse.find? (fun q => q.1 == k) with _ | q
    · rw [hf]; cases hpk : p.1 == k <;> simp [List.find?, hpk]
    · rw [hf]; simp

/-- A line built as `key ++ "=" ++ value`, with no `'='` in the key, splits
back into exactly that key and that verbatim value. -/
theorem splitEqAux_append (ks vs : List Char) (h : '=' ∉ ks) :
    splitEqAux (ks ++ '=' :: vs) = some (ks, vs) := by
  induction ks with
  | nil => simp [splitEqAux]
  | cons c cs ih =>
    simp only [List.mem_cons, not_or] at h
    simp [splitEqAux, Ne.symm h.1, ih h.2]

/-- A line without `'='` splits to `none`. -/
theorem splitEqAux_none (cs : List Char) (h : '=' ∉ cs) : splitEqAux cs = none := by
  induction cs with
  | nil => rfl
  | cons c cs ih =>
    simp only [List.mem_cons, not_or] at h
    simp [splitEqAux, Ne.symm h.1, ih h.2]

/-- C3 (counterexample): the claim says metadata values are trimmed of
surrounding whitespace, but `check_newer_ab_build` stores the remainder after
`'='` verbatim: the value parsed from `"a= b"` keeps its leading space and is
not equal to its own trim. -/
theorem metadata_value_not_trimmed :
    metaValue "a= b" "a" = " b" ∧ trimC (metaValue "a= b" "a") ≠ metaValue "a= b" "a" := by
  decide

/-- C3 (amended): the mapping used by the A/B gate holds, for each key, the
verbatim (untrimmed) remainder after the first `'='` of the last line
assigning that key; a line built from an `'='`-free key and any value parses
back verbatim, and a line without `'='` contributes no entry. -/
theorem metadata_map_last_verbatim (s k kk vv line : String)
    (hkk : '=' ∉ kk.data) (hline : '=' ∉ line.data) :
    metaValue s k = lastAssign s k ∧
    splitFirstEq (kk ++ "=" ++ vv) = some (kk, vv) ∧
    splitFirstEq line = none := by
  refine ⟨?_, ?_, ?_⟩
  · unfold metaValue lastAssign
    rw [foldl_eq_find_reverse]
  · have hdata : (kk ++ "=" ++ vv).data = kk.data ++ '=' :: vv.data := by
      simp [String.data_append]
    unfold splitFirstEq
    rw [hdata, splitEqAux_append kk.data vv.data hkk]
  · unfold splitFirstEq
    rw [splitEqAux_none line.data hline]

/-- C3 witness: the amended statement at concrete inputs. -/
theorem metadata_map_last_verbatim_witness :
    metaValue "x=1\ny\nx= 2" "x" = lastAssign "x=1\ny\nx= 2" "x" ∧
    splitFirstEq ("ab" ++ "=" ++ " c") = some ("ab", " c") ∧
    splitFirstEq "noeq" = none :=
  metadata_map_last_verbatim "x=1\ny\nx= 2" "x" "ab" " c" "noeq" (by decide) (by decide)

/-! ### Supervisor and install-driver theorems (claims C2, C4, C5, C10) -/

/-- What one dispatched command does to the two scalar flags of the loop
state: `retry_update` is set exactly by a `retry_update` command and
`wipe_cache` exactly by a `wipe_cache` command, and neither is ever reset. -/
theorem processCmd_fields (st : SupState) (c : String) (rest : List Char) (st' : SupState)
    (h : processCmd st c rest = some st') :
    st'.retry_update = (st.retry_update || (c == "retry_update")) ∧
    st'.wipe_cache = (st.wipe_cache || (c == "wipe_cache")) := by
  unfold processCmd at h
  split_ifs at h <;> (try dsimp only at h) <;> (try split at h) <;>
    first
      | exact (Option.noConfusion h)
      | (injection h with h; subst h; simp [*, beq_eq_decide])

/-- `processCmd_fields` lifted to one whole line. -/
theorem processLine_fields (st : SupState) (l : String) (st' : SupState)
    (h : processLine st l = some st') :
    st'.retry_update = (st.retry_update || (firstTok l == some "retry_update")) ∧
    st'.wipe_cache = (st.wipe_cache || (firstTok l == some "wipe_cache")) := by
  unfold processLine at h
  unfold firstTok
  rcases ht : (strtokAux stdDelims l.data).1 with _ | cmd
  · simp only [ht] at h
    injection h with h
    subst h
    simp
  · simp only [ht] at h
    have hc := processCmd_fields st (String.mk cmd) _ st' h
    simpa using hc

/-- Over a whole status stream that the loop survives, the two flags end up
set exactly when some line carried the corresponding command. -/
theorem processLines_fields : ∀ (lines : List String) (st st' : SupState),
    processLines st lines = some st' →
    st'.retry_update = (st.retry_update || hasRetryLine lines) ∧
    st'.wipe_cache = (st.wipe_cache || hasWipeLine lines) := by
  intro lines
  induction lines with
  | nil =>
    intro st st' h
    injection h with h
    subst h
    simp [hasRetryLine, hasWipeLine]
  | cons l ls ih =>
    intro st st' h
    unfold processLines at h
    rcases hp : processLine st l with _ | st2
    · rw [hp] at h
      exact Option.noConfusion h
    · rw [hp] at h
      obtain ⟨hr, hw⟩ := ih st2 st' h
      obtain ⟨hr1, hw1⟩ := processLine_fields st l st2 hp
      constructor
      · rw [hr, hr1]
        simp [hasRetryLine, Bool.or_assoc]
      · rw [hw, hw1]
        simp [hasWipeLine, Bool.or_assoc]

/-- C1: provided the earlier gate predicates pass (device, serial, ota-type,
source incremental, source fingerprint), `check_newer_ab_build` accepts
exactly when the package is not a downgrade (`post-timestamp` present,
parsable, and at least the runtime timestamp) or the downgrade is licensed by
`ota-downgrade == "yes"` together with a non-empty `pre-build`; every other
outcome of the downgrade check is `INSTALL_ERROR`, and the runtime timestamp
defaults to the largest signed 64-bit integer when the property is absent. -/
theorem check_newer_ab_build_downgrade_policy (props : Props) (m : String)
    (h1 : metaValue m "pre-device" = props "ro.product.device")
    (h2 : metaValue m "pre-device" ≠ "")
    (h3 : metaValue m "serialno" = "" ∨ metaValue m "serialno" = props "ro.serialno")
    (h4 : metaValue m "ota-type" = "AB")
    (h5 : metaValue m "pre-build-incremental" = "" ∨
      metaValue m "pre-build-incremental" = props "ro.build.version.incremental")
    (h6 : metaValue m "pre-build" = "" ∨
      metaValue m "pre-build" = props "ro.build.fingerprint") :
    (check_newer_ab_build_meta props m = .SUCCESS ∨
      check_newer_ab_build_meta props m = .ERROR) ∧
    (check_newer_ab_build_meta props m = .SUCCESS ↔
      (¬ isDowngrade props m ∨
        (metaValue m "ota-downgrade" = "yes" ∧ metaValue m "pre-build" ≠ ""))) ∧
    (props "ro.build.date.utc" = "" →
      property_get_int64 props "ro.build.date.utc" int64Max = int64Max) := by
  have hiff : (metaValue m "post-timestamp" = "" ∨
      parseInt64 (metaValue m "post-timestamp") = none ∨
      (parseInt64 (metaValue m "post-timestamp")).getD 0 <
        property_get_int64 props "ro.build.date.utc" int64Max) ↔ isDowngrade props m := by
    unfold isDowngrade
    cases hp : parseInt64 (metaValue m "post-timestamp") <;> simp [hp]
  refine ⟨?_, ?_, ?_⟩
  · unfold check_newer_ab_build_meta
    dsimp only
    split_ifs <;> simp
  · unfold check_newer_ab_build_meta
    dsimp only
    split_ifs with g1 g2 g3 g4 g5 g6 g7 g8
    · rcases g1 with g | g
      · exact absurd h1 g
      · exact absurd g h2
    · rcases h3 with h | h
      · exact absurd h g2.1
      · exact absurd h g2.2
    · exact absurd h4 g3
    · rcases h5 with h | h
      · exact absurd h g4.1
      · exact absurd h g4.2
    · rcases h6 with h | h
      · exact absurd h g5.1
      · exact absurd h g5.2
    · have hd := hiff.mp g6
      simp [hd, g7]
    · have hd := hiff.mp g6
      simp [hd, g8]
    · have hd := hiff.mp g6
      simp only [not_not] at g7
      simp [hd, g7, g8]
    · have hnd := (not_congr hiff).mp g6
      simp [hnd]
  · intro h
    unfold property_get_int64
    rw [h]
    rfl

/-- C1 witness: a downgrade package carrying `ota-downgrade=yes` and a
non-empty `pre-build` passes the gate. -/
theorem check_newer_ab_build_downgrade_policy_witness :
    check_newer_ab_build_meta propsC1 metaC1 = .SUCCESS ∧ isDowngrade propsC1 metaC1 :=
  ⟨((check_newer_ab_build_downgrade_policy propsC1 metaC1 (by decide) (by decide)
      (Or.inl (by decide)) (by decide) (Or.inl (by decide))
      (Or.inr (by decide))).2.1).mpr (Or.inr ⟨by decide, by decide⟩),
    by decide⟩

/-- String append is associative. -/
theorem strAppend_assoc (a b c : String) : a ++ b ++ c = a ++ (b ++ c) := by
  apply String.ext
  simp [String.data_append]

/-- The written log content, spelled out: four header lines, each followed by
a newline, then the joined log buffer. -/
theorem install_log_content_shape (path : String) (result : InstallResult) (t : Int)
    (rc : Nat) (b : List String) :
    install_log_content path result t rc b =
      path ++ "\n" ++ (if result = InstallResult.SUCCESS then "1" else "0") ++ "\n" ++
      ("time_total: " ++ toString t) ++ "\n" ++ ("retry: " ++ toString rc) ++ "\n" ++
      joinWith "\n" b := by
  simp [install_log_content, joinWith, strAppend_assoc]

/-- C2 (counterexample): a stream that contains a `retry_update` line does
not always yield `INSTALL_RETRY` — here a later argument-less `progress`
line drives `strtok` to NULL and the loop into undefined behaviour (modelled
`none`), so `try_update_binary` does not return at all, for any exit code. -/
theorem try_update_binary_crash_not_retry :
    hasRetryLine childCrash.lines = true ∧
    try_update_binary propsC1 "/pkg.zip" zipW false [] childCrash = none := by
  decide

/-- C2 (amended): provided the update command was built (the gate passed) and
the supervisor loop runs to completion, `try_update_binary` returns
`INSTALL_RETRY` exactly when some status line's command was `retry_update`,
regardless of the child's exit status; otherwise `INSTALL_SUCCESS` for a
normal exit with code 0 and `INSTALL_ERROR` for every other exit; and a
`fork` failure returns `INSTALL_ERROR`. -/
theorem try_update_binary_terminal_status (props : Props) (path : String) (zip : Zip)
    (wipe_cache : Bool) (log_buffer : List String) (child : ChildRun)
    (out : InstallResult × Bool × List String) (args : List String)
    (hargs : update_binary_command props path zip pipeWriteFd = .ok args)
    (hrun : try_update_binary props path zip wipe_cache log_buffer child = some out) :
    (child.forkOk = false → out.1 = .ERROR) ∧
    (child.forkOk = true →
      out.1 = (if hasRetryLine child.lines then InstallResult.RETRY
        else match child.status with
          | .exited 0 => InstallResult.SUCCESS
          | _ => InstallResult.ERROR)) := by
  unfold try_update_binary at hrun
  rw [hargs] at hrun
  dsimp only at hrun
  constructor
  · intro hf
    rw [hf] at hrun
    simp only [Bool.false_eq_true, if_false] at hrun
    injection hrun with hrun
    rw [← hrun]
  · intro hf
    rw [hf] at hrun
    simp only [if_true] at hrun
    rcases hp : processLines ⟨false, false, read_source_target_build zip log_buffer, []⟩
        child.lines with _ | st
    · rw [hp] at hrun
      exact Option.noConfusion hrun
    · rw [hp] at hrun
      injection hrun with hrun
      obtain ⟨hr, _⟩ := processLines_fields child.lines _ st hp
      rw [← hrun]
      simp only [Bool.false_or] at hr
      rw [hr]

/-- C2 witness: the terminal status of a concrete run — `retry_update` seen,
child exited with code 1, result `INSTALL_RETRY`. -/
theorem try_update_binary_terminal_status_witness :
    (InstallResult.RETRY, false, ([] : List String)).1 =
      (if hasRetryLine childRetry.lines then InstallResult.RETRY
       else match childRetry.status with
         | .exited 0 => InstallResult.SUCCESS
         | _ => InstallResult.ERROR) :=
  (try_update_binary_terminal_status propsC1 "/pkg.zip" zipW false [] childRetry
    (InstallResult.RETRY, false, [])
    ["/sbin/update_engine_sideload", "--payload=file:///pkg.zip", "--offset=7",
      "--headers=H", "--status_fd=1"]
    (by rfl) (by decide)).2 rfl

/-- C4 (code-bug evaluation): a `progress`, `set_progress` or `log` line that
lacks its arguments hands the NULL result of `strtok` to
`strtof` / `strtol` / `std::string` — undefined behaviour, modelled as the
loop not continuing (`none`) — while an unknown command or an all-delimiter
line is logged/skipped and the loop does continue. -/
theorem supervisor_malformed_line_crash :
    processLine ⟨false, false, [], []⟩ "progress\n" = none ∧
    processLine ⟨false, false, [], []⟩ "progress 0.3\n" = none ∧
    processLine ⟨false, false, [], []⟩ "set_progress\n" = none ∧
    processLine ⟨false, false, [], []⟩ "log\n" = none ∧
    processLine ⟨false, false, [], []⟩ "frobnicate 1 2\n" = some ⟨false, false, [], []⟩ ∧
    processLine ⟨false, false, [], []⟩ " \n" = some ⟨false, false, [], []⟩ := by
  decide

/-- C5: whenever `install_package` returns (and hence writes its log), the
log is exactly the four header lines — the package path, `"1"` for
`INSTALL_SUCCESS` and `"0"` otherwise, `time_total: <seconds>` and
`retry: <count>` — joined by newlines, followed by a newline and then the
joined accumulated log buffer. -/
theorem install_log_header_format (env : OuterEnv) (path : String) (wipe_cache : Bool)
    (retry_count : Nat) (result : InstallResult) (wipe : Bool) (log : String)
    (h : install_package env path wipe_cache retry_count = some (result, wipe, log)) :
    ∃ buf : List String,
      log = path ++ "\n" ++ (if result = InstallResult.SUCCESS then "1" else "0") ++ "\n" ++
        ("time_total: " ++ toString env.time_total) ++ "\n" ++
        ("retry: " ++ toString retry_count) ++ "\n" ++ joinWith "\n" buf := by
  unfold install_package at h
  dsimp only at h
  rcases hstep : (if !env.setupMountsOk then
      some (InstallResult.ERROR, wipe_cache, ([] : List String))
    else really_install_package env.inner path wipe_cache []) with _ | trip
  · rw [hstep] at h
    exact Option.noConfusion h
  · rw [hstep] at h
    simp only [Option.map_some'] at h
    injection h with h
    have h1 : trip.1 = result := congrArg Prod.fst h
    have h3 := congrArg (fun t : InstallResult × Bool × String => t.2.2) h
    dsimp only at h3
    subst h1
    rw [← h3]
    exact ⟨_, install_log_content_shape path trip.1 env.time_total retry_count _⟩

/-- C5 witness: the header format of a concrete failed run. -/
theorem install_log_header_format_witness :
    ∃ buf : List String,
      "/p.zip\n0\ntime_total: 3\nretry: 2\n" =
        "/p.zip" ++ "\n" ++ (if InstallResult.ERROR = InstallResult.SUCCESS then "1" else "0") ++
        "\n" ++ ("time_total: " ++ toString (3 : Int)) ++ "\n" ++
        ("retry: " ++ toString (2 : Nat)) ++ "\n" ++ joinWith "\n" buf :=
  install_log_header_format envC5 "/p.zip" false 2 .ERROR false
    "/p.zip\n0\ntime_total: 3\nretry: 2\n" (by decide)

/-- C10: the out-parameter `*wipe_cache` is written only after a successful
fork.  Every pre-fork return (gate / payload failure `r`, or fork failure)
returns the incoming value unchanged, as do the mapping, verification and
archive-open failures of `really_install_package`; after a successful fork
that the loop survives, the returned value is `true` exactly when some
status line's command was `wipe_cache`, independent of the incoming value. -/
theorem wipe_cache_frame (props : Props) (path : String) (zip : Zip) (wipe_cache : Bool)
    (log_buffer : List String) (child : ChildRun) (env : InstallEnv) :
    (∀ r, update_binary_command props path zip pipeWriteFd = .error r →
      try_update_binary props path zip wipe_cache log_buffer child =
        some (r, wipe_cache, read_source_target_build zip log_buffer)) ∧
    (∀ args, update_binary_command props path zip pipeWriteFd = .ok args →
      child.forkOk = false →
      try_update_binary props path zip wipe_cache log_buffer child =
        some (.ERROR, wipe_cache, read_source_target_build zip log_buffer)) ∧
    (∀ args, update_binary_command props path zip pipeWriteFd = .ok args →
      child.forkOk = true →
      ∀ out : InstallResult × Bool × List String,
        try_update_binary props path zip wipe_cache log_buffer child = some out →
        out.2.1 = hasWipeLine child.lines) ∧
    (env.mapOk = false →
      really_install_package env path wipe_cache log_buffer =
        some (.CORRUPT, wipe_cache, log_buffer)) ∧
    (env.mapOk = true → env.verifyOk = false →
      really_install_package env path wipe_cache log_buffer =
        some (.CORRUPT, wipe_cache,
          log_buffer ++ ["error: " ++ toString kZipVerificationFailure])) ∧
    (env.mapOk = true → env.verifyOk = true → env.openOk = false →
      really_install_package env path wipe_cache log_buffer =
        some (.CORRUPT, wipe_cache, log_buffer ++ ["error: " ++ toString kZipOpenFailure])) := by
  refine ⟨?_, ?_, ?_, ?_, ?_, ?_⟩
  · intro r hr
    unfold try_update_binary
    rw [hr]
  · intro args hargs hf
    unfold try_update_binary
    rw [hargs, hf]
    simp only [Bool.false_eq_true, if_false]
  · intro args hargs hf out hrun
    unfold try_update_binary at hrun
    rw [hargs, hf] at hrun
    dsimp only at hrun
    simp only [if_true] at hrun
    rcases hp : processLines ⟨false, false, read_source_target_build zip log_buffer, []⟩
        child.lines with _ | st
    · rw [hp] at hrun
      exact Option.noConfusion hrun
    · rw [hp] at hrun
      injection hrun with hrun
      obtain ⟨_, hw⟩ := processLines_fields child.lines _ st hp
      rw [← hrun]
      simpa using hw
  · intro hm
    simp [really_install_package, hm]
  · intro hm hv
    simp [really_install_package, hm, hv]
  · intro hm hv ho
    simp [really_install_package, hm, hv, ho]

/-- C10 witness: the frame property at concrete runs — a pre-fork gate
failure leaves `*wipe_cache` (here `true`) unchanged, and a supervised run
sets it from the stream. -/
theorem wipe_cache_frame_witness :
    try_update_binary propsC1 "/p.zip" zipNoMeta true ["x"] childWipe =
      some (.CORRUPT, true, ["x"]) ∧
    (InstallResult.SUCCESS, true, ([] : List String)).2.1 = hasWipeLine childWipe.lines :=
  ⟨(wipe_cache_frame propsC1 "/p.zip" zipNoMeta true ["x"] childWipe envC10).1
      .CORRUPT (by rfl),
    (wipe_cache_frame propsC1 "/p.zip" zipW false [] childWipe envC10).2.2.1
      ["/sbin/update_engine_sideload", "--payload=file:///p.zip", "--offset=7",
        "--headers=H", "--status_fd=1"]
      (by rfl) rfl (InstallResult.SUCCESS, true, []) (by decide)⟩

/-! ### Verifier claims C6-C9 -/

/-- A failing `read_ranges` prefix is impossible when a good decomposition
exists; conversely a surviving run has one.  Soundness direction. -/
theorem read_ranges_sound (l : List String) :
    (read_ranges l).1 = true → ∃ ps, goodPairs l ps = true := by
  induction l using read_ranges.induct with
  | case1 => exact fun _ => ⟨[], rfl⟩
  | case2 x => exact fun _ => ⟨[], rfl⟩
  | case3 s e rest a b he hs hge =>
    intro h
    unfold read_ranges at h
    rw [hs, he] at h
    dsimp only at h
    rw [if_pos hge] at h
    exact absurd h (by simp)
  | case4 s e rest a b he hs hnge ih =>
    intro h
    unfold read_ranges at h
    rw [hs, he] at h
    dsimp only at h
    rw [if_neg hnge] at h
    dsimp only at h
    obtain ⟨ps, hps⟩ := ih h
    refine ⟨(a, b) :: ps, ?_⟩
    simp only [goodPairs, Bool.and_eq_true, beq_iff_eq, decide_eq_true_eq]
    exact ⟨⟨⟨hs, he⟩, by omega⟩, hps⟩
  | case5 s e rest hmatch =>
    intro h
    unfold read_ranges at h
    simp [hmatch] at h

/-- On a good decomposition the pairs loop succeeds and reads exactly the
byte intervals `[start * 4096, end * 4096)`, in order. -/
theorem read_ranges_complete : ∀ (ps : List (Nat × Nat)) (l : List String),
    goodPairs l ps = true →
    read_ranges l = (true, ps.map (fun p => (p.1 * BLOCKSIZE, p.2 * BLOCKSIZE))) := by
  intro ps
  induction ps with
  | nil =>
    intro l hg
    rcases l with _ | ⟨s, _ | ⟨e, rest⟩⟩
    · rfl
    · rfl
    · simp [goodPairs] at hg
  | cons p ps ih =>
    intro l hg
    obtain ⟨a, b⟩ := p
    rcases l with _ | ⟨s, _ | ⟨e, rest⟩⟩
    · simp [goodPairs] at hg
    · simp [goodPairs] at hg
    · simp only [goodPairs, Bool.and_eq_true, beq_iff_eq, decide_eq_true_eq] at hg
      obtain ⟨⟨⟨hs, he⟩, hab⟩, hrest⟩ := hg
      unfold read_ranges
      rw [hs, he]
      dsimp only
      rw [if_neg (by omega)]
      rw [ih rest hrest]
      have hofs : a * BLOCKSIZE + (b - a) * BLOCKSIZE = b * BLOCKSIZE := by
        rw [← Nat.add_mul, Nat.add_sub_cancel' (Nat.le_of_lt hab)]
      simp [hofs]

/-- C9: `read_blocks` rejects a range spec whose leading count is
unparsable, zero, odd, or different from the number of following integers,
reading nothing; under a valid count it succeeds exactly when the remaining
integers decompose into parsed pairs with `start < end`, and then the byte
ranges read from the device path (prefix ++ slot suffix) are exactly
`[start * 4096, end * 4096)` for each pair, in care-map order. -/
theorem read_blocks_ranges (env : VerifierEnv) (dev rs : String)
    (hopen : env.devOpenOk (dev ++ env.props "ro.boot.slot_suffix") = true) :
    (cParseUint ((splitStr ',' rs).headD "") sizeTMax = none →
      read_blocks env dev rs = (false, [])) ∧
    (∀ n, cParseUint ((splitStr ',' rs).headD "") sizeTMax = some n →
      (n = 0 ∨ n % 2 ≠ 0 ∨ n ≠ (splitStr ',' rs).length - 1) →
      read_blocks env dev rs = (false, [])) ∧
    (∀ n, cParseUint ((splitStr ',' rs).headD "") sizeTMax = some n →
      n ≠ 0 → n % 2 = 0 → n = (splitStr ',' rs).length - 1 →
      ((read_blocks env dev rs).1 = true →
        ∃ ps, goodPairs ((splitStr ',' rs).drop 1) ps = true) ∧
      (∀ ps, goodPairs ((splitStr ',' rs).drop 1) ps = true →
        read_blocks env dev rs =
          (true, ps.map (fun p =>
            (dev ++ env.props "ro.boot.slot_suffix", p.1 * BLOCKSIZE, p.2 * BLOCKSIZE))))) := by
  have hopen2 : (!env.devOpenOk (dev ++ env.props "ro.boot.slot_suffix")) = false := by
    simp [hopen]
  refine ⟨?_, ?_, ?_⟩
  · intro hn
    unfold read_blocks
    dsimp only
    rw [hopen2]
    simp only [Bool.false_eq_true, if_false]
    rw [hn]
  · intro n hn hbad
    unfold read_blocks
    dsimp only
    rw [hopen2]
    simp only [Bool.false_eq_true, if_false]
    rw [hn]
    dsimp only
    rw [if_pos hbad]
  · intro n hn h0 h2 hlen
    have hguard : ¬(n = 0 ∨ n % 2 ≠ 0 ∨ n ≠ (splitStr ',' rs).length - 1) := by
      omega
    constructor
    · intro h1
      unfold read_blocks at h1
      dsimp only at h1
      rw [hopen2] at h1
      simp only [Bool.false_eq_true, if_false] at h1
      rw [hn] at h1
      dsimp only at h1
      rw [if_neg hguard] at h1
      dsimp only at h1
      exact read_ranges_sound _ h1
    · intro ps hps
      unfold read_blocks
      dsimp only
      rw [hopen2]
      simp only [Bool.false_eq_true, if_false]
      rw [hn]
      dsimp only
      rw [if_neg hguard]
      rw [read_ranges_complete ps _ hps]
      simp [List.map_map, Function.comp]

/-- C9 witness: the care map `4,0,2,5,7` against
`/dev/block/by-name/system` with slot suffix `_a` reads bytes `[0, 8192)`
and `[20480, 28672)` of `/dev/block/by-name/system_a`, in order. -/
theorem read_blocks_ranges_witness :
    read_blocks envC9 "/dev/block/by-name/system" "4,0,2,5,7" =
      (true, [("/dev/block/by-name/system_a", 0, 8192),
        ("/dev/block/by-name/system_a", 20480, 28672)]) :=
  ((read_blocks_ranges envC9 "/dev/block/by-name/system" "4,0,2,5,7" (by decide)).2.2
    4 (by decide) (by decide) (by decide) (by decide)).2
    [(0, 2), (5, 7)] (by decide)

/-- C8: a missing care map verifies trivially with nothing scanned; a
readable care map whose trimmed contents do not split into exactly 2 or 4
newline-separated lines fails with nothing scanned. -/
theorem care_map_gate (env : VerifierEnv) :
    (env.care_map = .absent → verify_image env = (true, [])) ∧
    (∀ s, env.care_map = .contents s →
      (splitStr '\n' (trimC s)).length ≠ 2 →
      (splitStr '\n' (trimC s)).length ≠ 4 →
      verify_image env = (false, [])) := by
  constructor
  · intro h
    unfold verify_image
    rw [h]
  · intro s h h2 h4
    unfold verify_image
    rw [h]
    dsimp only
    rw [if_pos ⟨h2, h4⟩]

/-- C8 witness: three lines are rejected with nothing scanned. -/
theorem care_map_gate_witness : verify_image envC8 = (false, []) :=
  (care_map_gate envC8).2 "a\nb\nc" rfl (by decide) (by decide)

/-- C7: when the slot is not marked successful (`FALSE`) and the runtime
verity mode lower-cases to `eio`, the verifier exits -1 without reading any
block and without invoking `markBootSuccessful`; likewise any verity mode
other than exactly `enforcing` exits -1 before any block is read. -/
theorem verity_mode_gate (env : VerifierEnv)
    (hslot : env.is_successful = .FALSE) :
    ((env.props "ro.boot.veritymode").data.map asciiLower = "eio".data →
      update_verifier_main env = (-1, [], false)) ∧
    (env.props "ro.boot.veritymode" ≠ "enforcing" →
      update_verifier_main env = (-1, [], false)) := by
  constructor
  · intro h
    unfold update_verifier_main
    cases hm : env.hasModule
    · simp
    · simp only [hm, Bool.not_true, Bool.false_eq_true, if_false]
      rw [hslot]
      dsimp only
      have hc : strcasecmpEq (env.props "ro.boot.veritymode") "eio" = true := by
        unfold strcasecmpEq
        rw [h]
        decide
      simp only [hc, if_true]
  · intro h
    unfold update_verifier_main
    cases hm : env.hasModule
    · simp
    · simp only [hm, Bool.not_true, Bool.false_eq_true, if_false]
      rw [hslot]
      dsimp only
      cases hc : strcasecmpEq (env.props "ro.boot.veritymode") "eio"
      · simp only [hc, Bool.false_eq_true, if_false]
        rw [if_pos h]
      · simp only [hc, if_true]

/-- C7 witness: verity in (upper-case) EIO mode exits -1 with no reads and
no marking. -/
theorem verity_mode_gate_witness : update_verifier_main envC7 = (-1, [], false) :=
  (verity_mode_gate envC7 rfl).1 (by decide)

/-- C6 (counterexample): with the slot query returning `INVALID` and verity
in EIO mode, the verifier exits 0 having checked nothing — while the same
run with `FALSE` exits -1 at the verity-mode check.  `INVALID` is treated
like `TRUE` (already marked), not like `FALSE`. -/
theorem invalid_slot_skips_verification :
    update_verifier_main envC6 = (0, [], false) ∧
    update_verifier_main { envC6 with is_successful := .FALSE } = (-1, [], false) ∧
    update_verifier_main { envC6 with is_successful := .TRUE } = (0, [], false) := by
  refine ⟨by decide, by decide, by decide⟩

/-- C6 (amended): an `INVALID` marked-successful result is treated
identically to `TRUE`, not `FALSE`: the verifier performs no verity-mode
check, no care-map scan and no `markBootSuccessful`, and exits 0. -/
theorem invalid_treated_as_marked (env : VerifierEnv)
    (hmod : env.hasModule = true) (h : env.is_successful = .INVALID) :
    update_verifier_main env = (0, [], false) ∧
    update_verifier_main env = update_verifier_main { env with is_successful := .TRUE } := by
  have h1 : update_verifier_main env = (0, [], false) := by
    unfold update_verifier_main
    simp only [hmod, Bool.not_true, Bool.false_eq_true, if_false]
    rw [h]
  have h2 : update_verifier_main { env with is_successful := .TRUE } = (0, [], false) := by
    unfold update_verifier_main
    dsimp only
    simp only [hmod, Bool.not_true, Bool.false_eq_true, if_false]
  exact ⟨h1, h1.trans h2.symm⟩

/-- C6 witness: the amended behaviour at the concrete `INVALID` run. -/
theorem invalid_treated_as_marked_witness :
    update_verifier_main envC6 = (0, [], false) ∧
    update_verifier_main envC6 = update_verifier_main { envC6 with is_successful := .TRUE } :=
  invalid_treated_as_marked envC6 rfl rfl

end Recovery
